import Mathlib

/-!
Shallow embedding of the ghakuf MIDI message codec (src/src/messages.rs):
the `Message` value model with its `binary`/`len`/`status_byte` operations,
and the `MidiEventBuilder` running-status accumulator.  Machine integers are
modelled as `Nat` (with explicit `% 2 ^ w` where the source can wrap) and
`Int` for the signed pitch-bend payload; Rust code that can panic
(index out of bounds, unsigned subtraction underflow) returns `Option`.
-/

namespace Ghakuf

/-- Modelled from the spec: the `VLQ` type lives in the `formats` module,
which is not among the provided sources.  Spec section 4.1: `binary()` is the
minimal big-endian base-128 representation of the magnitude, continuation
bit (0x80) set on all but the last byte.  `vlqAux fuel m acc` prepends the
base-128 digits of `m` (with continuation bit) to `acc`; the fuel argument
makes the recursion structural so that the kernel can evaluate it. -/
def vlqAux : Nat → Nat → List Nat → List Nat
  | 0, _, acc => acc
  | fuel + 1, m, acc =>
    if m = 0 then acc else vlqAux fuel (m / 128) ((m % 128 + 128) :: acc)

/-- Modelled from the spec: minimal big-endian base-128 encoding of `n`,
continuation bit set on all but the final byte (spec section 4.1). -/
def vlqBinary (n : Nat) : List Nat :=
  vlqAux n (n / 128) [n % 128]

/-- Modelled from the spec: `VLQ::len()` is the encoded byte count
(spec section 4.1). -/
def vlqLen (n : Nat) : Nat :=
  (vlqBinary n).length

/-- Modelled from the spec: `Tag::Track.binary()` is the fixed 4-byte ASCII
marker "MTrk" (spec sections 3 and 6); `formats` is not among the sources. -/
def tagTrackBinary : List Nat :=
  [0x4d, 0x54, 0x72, 0x6b]

/-- The `MetaEvent` enum of messages.rs. -/
inductive MetaEvent where
  | SequenceNumber
  | TextEvent
  | CopyrightNotice
  | SequenceOrTrackName
  | InstrumentName
  | Lyric
  | Marker
  | CuePoint
  | MIDIChannelPrefix
  | EndOfTrack
  | SetTempo
  | SMTPEOffset
  | TimeSignature
  | KeySignature
  | SequencerSpecificMetaEvent
  | Unknown (event_type : Nat)
  deriving DecidableEq

/-- `MetaEvent::new`, the match on the second byte. -/
def MetaEvent.new (event_type : Nat) : MetaEvent :=
  match event_type with
  | 0x00 => MetaEvent.SequenceNumber
  | 0x01 => MetaEvent.TextEvent
  | 0x02 => MetaEvent.CopyrightNotice
  | 0x03 => MetaEvent.SequenceOrTrackName
  | 0x04 => MetaEvent.InstrumentName
  | 0x05 => MetaEvent.Lyric
  | 0x06 => MetaEvent.Marker
  | 0x07 => MetaEvent.CuePoint
  | 0x20 => MetaEvent.MIDIChannelPrefix
  | 0x2F => MetaEvent.EndOfTrack
  | 0x51 => MetaEvent.SetTempo
  | 0x54 => MetaEvent.SMTPEOffset
  | 0x58 => MetaEvent.TimeSignature
  | 0x59 => MetaEvent.KeySignature
  | 0x7F => MetaEvent.SequencerSpecificMetaEvent
  | _ => MetaEvent.Unknown event_type

/-- `MessageTool::status_byte` for `MetaEvent`: always 0xFF. -/
def MetaEvent.status_byte (_ : MetaEvent) : Nat :=
  0xff

/-- `MessageTool::binary` for `MetaEvent`: status byte then the kind code. -/
def MetaEvent.binary (e : MetaEvent) : List Nat :=
  [e.status_byte,
    match e with
    | MetaEvent.SequenceNumber => 0x00
    | MetaEvent.TextEvent => 0x01
    | MetaEvent.CopyrightNotice => 0x02
    | MetaEvent.SequenceOrTrackName => 0x03
    | MetaEvent.InstrumentName => 0x04
    | MetaEvent.Lyric => 0x05
    | MetaEvent.Marker => 0x06
    | MetaEvent.CuePoint => 0x07
    | MetaEvent.MIDIChannelPrefix => 0x20
    | MetaEvent.EndOfTrack => 0x2F
    | MetaEvent.SetTempo => 0x51
    | MetaEvent.SMTPEOffset => 0x54
    | MetaEvent.TimeSignature => 0x58
    | MetaEvent.KeySignature => 0x59
    | MetaEvent.SequencerSpecificMetaEvent => 0x7F
    | MetaEvent.Unknown event_type => event_type]

/-- `MessageTool::len` for `MetaEvent`: always 2. -/
def MetaEvent.len (_ : MetaEvent) : Nat :=
  2

/-- The `MidiEvent` enum of messages.rs.  `u8` fields are `Nat`,
the `i16` pitch-bend payload is `Int`. -/
inductive MidiEvent where
  | NoteOff (ch note velocity : Nat)
  | NoteOn (ch note velocity : Nat)
  | PolyphonicKeyPressure (ch note velocity : Nat)
  | ControlChange (ch control data : Nat)
  | ProgramChange (ch program : Nat)
  | ChannelPressure (ch pressure : Nat)
  | PitchBendChange (ch : Nat) (data : Int)
  | Unknown (ch : Nat)
  deriving DecidableEq

/-- `MessageTool::status_byte` for `MidiEvent`: type nibble or channel. -/
def MidiEvent.status_byte : MidiEvent → Nat
  | MidiEvent.NoteOff ch _ _ => 0x80 ||| (ch &&& 0x0f)
  | MidiEvent.NoteOn ch _ _ => 0x90 ||| (ch &&& 0x0f)
  | MidiEvent.PolyphonicKeyPressure ch _ _ => 0xa0 ||| (ch &&& 0x0f)
  | MidiEvent.ControlChange ch _ _ => 0xb0 ||| (ch &&& 0x0f)
  | MidiEvent.ProgramChange ch _ => 0xc0 ||| (ch &&& 0x0f)
  | MidiEvent.ChannelPressure ch _ => 0xd0 ||| (ch &&& 0x0f)
  | MidiEvent.PitchBendChange ch _ => 0xe0 ||| (ch &&& 0x0f)
  | MidiEvent.Unknown ch => 0x80 ||| (ch &&& 0x0f)

/-- The Rust cast `(data + 8192) as u16` applied to the `i16` pitch-bend
payload: two's-complement bits of the sum, read as an unsigned 16-bit value. -/
def pitchBendWire (data : Int) : Nat :=
  ((data + 8192) % 65536).toNat

/-- `MessageTool::binary` for `MidiEvent`.  For `PitchBendChange`, the source
computes `pitch_bend = (data + 8192) as u16` and emits
`[(pitch_bend >> 7) as u8, (pitch_bend & 0b1111111) as u8]`. -/
def MidiEvent.binary (e : MidiEvent) : List Nat :=
  match e with
  | MidiEvent.NoteOff _ note velocity => [e.status_byte, note, velocity]
  | MidiEvent.NoteOn _ note velocity => [e.status_byte, note, velocity]
  | MidiEvent.PolyphonicKeyPressure _ note velocity => [e.status_byte, note, velocity]
  | MidiEvent.ControlChange _ control data => [e.status_byte, control, data]
  | MidiEvent.ProgramChange _ program => [e.status_byte, program]
  | MidiEvent.ChannelPressure _ pressure => [e.status_byte, pressure]
  | MidiEvent.PitchBendChange _ data =>
    [e.status_byte, (pitchBendWire data >>> 7) % 256, pitchBendWire data &&& 0b1111111]
  | MidiEvent.Unknown _ => [e.status_byte]

/-- `MessageTool::len` for `MidiEvent`: 3, 2 or 1 by variant. -/
def MidiEvent.len : MidiEvent → Nat
  | MidiEvent.NoteOff _ _ _ => 3
  | MidiEvent.NoteOn _ _ _ => 3
  | MidiEvent.PolyphonicKeyPressure _ _ _ => 3
  | MidiEvent.ControlChange _ _ _ => 3
  | MidiEvent.PitchBendChange _ _ => 3
  | MidiEvent.ProgramChange _ _ => 2
  | MidiEvent.ChannelPressure _ _ => 2
  | MidiEvent.Unknown _ => 1

/-- The `SysExEvent` enum of messages.rs. -/
inductive SysExEvent where
  | F0
  | F7
  | Unknown (status : Nat)
  deriving DecidableEq

/-- `SysExEvent::new`. -/
def SysExEvent.new (status : Nat) : SysExEvent :=
  match status with
  | 0xF0 => SysExEvent.F0
  | 0xF7 => SysExEvent.F7
  | _ => SysExEvent.Unknown status

/-- `MessageTool::status_byte` for `SysExEvent`. -/
def SysExEvent.status_byte : SysExEvent → Nat
  | SysExEvent.F0 => 0xf0
  | SysExEvent.F7 => 0xf7
  | SysExEvent.Unknown status => status

/-- `MessageTool::binary` for `SysExEvent`: just the status byte. -/
def SysExEvent.binary (e : SysExEvent) : List Nat :=
  [e.status_byte]

/-- `MessageTool::len` for `SysExEvent`: always 1. -/
def SysExEvent.len (_ : SysExEvent) : Nat :=
  1

/-- The `Message` enum of messages.rs.  `delta_time` (a `VLQ` value) is
modelled by its magnitude. -/
inductive Message where
  | MetaEvent (delta_time : Nat) (event : MetaEvent) (data : List Nat)
  | MidiEvent (delta_time : Nat) (event : MidiEvent)
  | SysExEvent (delta_time : Nat) (event : SysExEvent) (data : List Nat)
  | TrackChange
  deriving DecidableEq

/-- `Message::binary`.  The `SysExEvent F0` arm of the source computes
`VLQ::new(data.len() as u32 - 1)` and slices `data[1..]`: on empty `data`
the subtraction underflows and the slice is out of bounds (a panic in Rust),
so that arm yields `none` here; every other arm is total. -/
def Message.binary : Message → Option (List Nat)
  | Message.MetaEvent delta_time event data =>
    some (vlqBinary delta_time ++ event.binary ++ vlqBinary data.length ++ data)
  | Message.MidiEvent delta_time event =>
    some (vlqBinary delta_time ++ event.binary)
  | Message.SysExEvent delta_time event data =>
    match event with
    | SysExEvent.F0 =>
      if data = [] then none
      else
        some (vlqBinary delta_time ++ event.binary ++
          vlqBinary (data.length - 1) ++ data.tail)
    | _ =>
      some (vlqBinary delta_time ++ event.binary ++ vlqBinary data.length ++ data)
  | Message.TrackChange => some tagTrackBinary

/-- `Message::len`.  Note the `SysExEvent` arm of the source sums
`delta_time.len()`, `VLQ::new(data.len() + (1 for F0, else 0)).len()` and
`data.len()`, with no `event.len()` term. -/
def Message.len : Message → Nat
  | Message.MetaEvent delta_time event data =>
    vlqLen delta_time + event.len + vlqLen data.length + data.length
  | Message.MidiEvent delta_time event =>
    vlqLen delta_time + event.len
  | Message.SysExEvent delta_time event data =>
    vlqLen delta_time +
      vlqLen (data.length + (match event with | SysExEvent.F0 => 1 | _ => 0)) +
      data.length
  | Message.TrackChange => tagTrackBinary.length

/-- The `MidiEventBuilder` struct of messages.rs. -/
structure MidiEventBuilder where
  status : Nat
  shortage : Nat
  data : List Nat
  deriving DecidableEq

/-- `MidiEventBuilder::new`: the required parameter-byte count from the high
nibble, via the range pattern `0x80...0xb0 | 0xe0 => 2, 0xc0 | 0xd0 => 1`. -/
def MidiEventBuilder.new (status : Nat) : MidiEventBuilder :=
  { status := status
    data := []
    shortage :=
      if (0x80 ≤ status &&& 0xf0 ∧ status &&& 0xf0 ≤ 0xb0) ∨ status &&& 0xf0 = 0xe0 then 2
      else if status &&& 0xf0 = 0xc0 ∨ status &&& 0xf0 = 0xd0 then 1
      else 0 }

/-- `MidiEventBuilder::push`: append a parameter byte while `shortage > 0`. -/
def MidiEventBuilder.push (b : MidiEventBuilder) (data : Nat) : MidiEventBuilder :=
  if b.shortage > 0 then
    { b with data := b.data ++ [data], shortage := b.shortage - 1 }
  else b

/-- Push a whole list of parameter bytes in order. -/
def MidiEventBuilder.pushAll (b : MidiEventBuilder) (bytes : List Nat) : MidiEventBuilder :=
  bytes.foldl MidiEventBuilder.push b

/-- The Rust cast `v as i16` applied to a `u16` value: reinterpret the 16
bits in two's complement. -/
def u16AsI16 (v : Nat) : Int :=
  if v < 32768 then (v : Int) else (v : Int) - 65536

/-- `MidiEventBuilder::build`.  The source indexes `self.data[0]` and
`self.data[1]`, which panics when too few bytes were pushed, hence `Option`.
The `0xe0` arm is transcribed bit for bit: `lsb = data[0] as u16`,
`msb = (data[1] as u16) << 8`, payload `(msb & lsb) as i16 - 8192`. -/
def MidiEventBuilder.build (b : MidiEventBuilder) : Option MidiEvent :=
  if b.status &&& 0xf0 = 0x80 then
    match b.data with
    | d0 :: d1 :: _ => some (MidiEvent.NoteOff (b.status &&& 0x0f) d0 d1)
    | _ => none
  else if b.status &&& 0xf0 = 0x90 then
    match b.data with
    | d0 :: d1 :: _ => some (MidiEvent.NoteOn (b.status &&& 0x0f) d0 d1)
    | _ => none
  else if b.status &&& 0xf0 = 0xa0 then
    match b.data with
    | d0 :: d1 :: _ => some (MidiEvent.PolyphonicKeyPressure (b.status &&& 0x0f) d0 d1)
    | _ => none
  else if b.status &&& 0xf0 = 0xb0 then
    match b.data with
    | d0 :: d1 :: _ => some (MidiEvent.ControlChange (b.status &&& 0x0f) d0 d1)
    | _ => none
  else if b.status &&& 0xf0 = 0xc0 then
    match b.data with
    | d0 :: _ => some (MidiEvent.ProgramChange (b.status &&& 0x0f) d0)
    | _ => none
  else if b.status &&& 0xf0 = 0xd0 then
    match b.data with
    | d0 :: _ => some (MidiEvent.ChannelPressure (b.status &&& 0x0f) d0)
    | _ => none
  else if b.status &&& 0xf0 = 0xe0 then
    match b.data with
    | d0 :: d1 :: _ =>
      some (MidiEvent.PitchBendChange (b.status &&& 0x0f)
        (u16AsI16 ((d1 <<< 8) % 65536 &&& d0) - 8192))
    | _ => none
  else some (MidiEvent.Unknown (b.status &&& 0x0f))

/-- The trailing parameter-byte count table as the spec states it, for
comparison with `MidiEventBuilder.new`: 2 for the NoteOff, NoteOn,
PolyphonicKeyPressure, ControlChange and PitchBendChange nibbles, 1 for the
ProgramChange and ChannelPressure nibbles, 0 otherwise. -/
def shortageSpec (s : Nat) : Nat :=
  if s &&& 0xf0 = 0x80 then 2
  else if s &&& 0xf0 = 0x90 then 2
  else if s &&& 0xf0 = 0xa0 then 2
  else if s &&& 0xf0 = 0xb0 then 2
  else if s &&& 0xf0 = 0xc0 then 1
  else if s &&& 0xf0 = 0xd0 then 1
  else if s &&& 0xf0 = 0xe0 then 2
  else 0

set_option maxRecDepth 4000

/-- Pushing any byte sequence preserves the sum of stored bytes and
remaining shortage, since `push` trades one unit of shortage for one stored
byte and otherwise does nothing. -/
theorem pushAll_length_shortage (bytes : List Nat) (b : MidiEventBuilder) :
    (b.pushAll bytes).data.length + (b.pushAll bytes).shortage =
      b.data.length + b.shortage := by
  induction bytes generalizing b with
  | nil => rfl
  | cons x rest ih =>
    have hstep : (b.push x).data.length + (b.push x).shortage =
        b.data.length + b.shortage := by
      unfold MidiEventBuilder.push
      split
      · simp
        omega
      · rfl
    have hall : b.pushAll (x :: rest) = (b.push x).pushAll rest := rfl
    rw [hall]
    exact (ih (b.push x)).trans hstep

/-- `push` is the identity once the shortage is exhausted. -/
theorem push_of_shortage_zero (b : MidiEventBuilder) (x : Nat)
    (h : b.shortage = 0) : b.push x = b := by
  unfold MidiEventBuilder.push
  simp [h]

/-- Claim C1: the claim that `len()` always equals the byte count of
`binary()` fails on the code.  The `SysExEvent` arm of `Message::len` omits
the status byte emitted by `binary()`: for an F7 event with empty data and
delta time 0, `binary()` emits the three bytes `[0x00, 0xF7, 0x00]` while
`len()` returns 2. -/
theorem message_len_binary_mismatch_f7 :
    Message.binary (Message.SysExEvent 0 SysExEvent.F7 []) =
      some [0x00, 0xf7, 0x00] ∧
    ([0x00, 0xf7, 0x00] : List Nat).length = 3 ∧
    Message.len (Message.SysExEvent 0 SysExEvent.F7 []) = 2 := by
  decide

/-- Claim C2: the pitch-bend encode/decode symmetry fails on the code.
Feeding status 0xE0 and parameter bytes 1, 0 through the builder yields
`PitchBendChange` with payload `(0 <<< 8) &&& 1 - 8192 = -8192` (the AND of
the shifted high byte with the low byte zeroes the value), and re-encoding
that event emits parameter bytes `[0, 0]`, not the original `[1, 0]`. -/
theorem pitch_bend_roundtrip_fails :
    (((MidiEventBuilder.new 0xe0).push 1).push 0).build =
      some (MidiEvent.PitchBendChange 0 (-8192)) ∧
    MidiEvent.binary (MidiEvent.PitchBendChange 0 (-8192)) =
      [0xe0, 0x00, 0x00] ∧
    ([0x00, 0x00] : List Nat) ≠ [1, 0] := by
  decide

/-- Claim C3: the claim that `build()` rebases the combined 14-bit wire
value fails on the code.  For status 0xE0 and parameter bytes 1, 1 the
14-bit combination is `(1 <<< 7) ||| 1 = 129`, so the claim requires payload
`129 - 8192 = -8063`; the code computes `((1 <<< 8) &&& 1) - 8192 = -8192`
because it shifts by 8 and takes a bitwise AND instead of an OR. -/
theorem pitch_bend_combine_fails :
    (((MidiEventBuilder.new 0xe0).push 1).push 1).build =
      some (MidiEvent.PitchBendChange 0 (-8192)) ∧
    ((1 <<< 7) ||| 1 : Nat) = 129 ∧
    (-8192 : Int) ≠ (129 : Int) - 8192 := by
  decide

/-- Claim C4, counterexample: `binary()` for an F0 event strips the first
stored byte unconditionally, not only when it is 0xF0.  For stored data
`[1, 2, 3]` (no leading 0xF0) the claim demands the unmodified payload
`VLQ(3) ++ [1, 2, 3]`, but the code emits `VLQ(2) ++ [2, 3]`. -/
theorem sysex_f0_strips_unconditionally :
    Message.binary (Message.SysExEvent 0 SysExEvent.F0 [1, 2, 3]) =
      some [0x00, 0xf0, 2, 2, 3] ∧
    some ([0x00, 0xf0, 2, 2, 3] : List Nat) ≠
      some [0x00, 0xf0, 3, 1, 2, 3] := by
  decide

/-- Claim C4, amended: for an F0 event with nonempty stored data, `binary()`
always excludes the first stored byte, whatever its value: the payload is
`VLQ(data.len() - 1)` followed by `data[1..]`; for F7 and Unknown events the
payload is emitted unmodified with length `VLQ(data.len())`. -/
theorem sysex_binary_payload (dt s : Nat) (data : List Nat) (h : data ≠ []) :
    Message.binary (Message.SysExEvent dt SysExEvent.F0 data) =
      some (vlqBinary dt ++ [0xf0] ++ vlqBinary (data.length - 1) ++ data.tail) ∧
    Message.binary (Message.SysExEvent dt SysExEvent.F7 data) =
      some (vlqBinary dt ++ [0xf7] ++ vlqBinary data.length ++ data) ∧
    Message.binary (Message.SysExEvent dt (SysExEvent.Unknown s) data) =
      some (vlqBinary dt ++ [s] ++ vlqBinary data.length ++ data) := by
  refine ⟨?_, rfl, rfl⟩
  cases data with
  | nil => exact absurd rfl h
  | cons x xs => rfl

/-- Witness for the amended claim C4 at delta time 0, status 0x41 and
stored data `[1, 2, 3]`. -/
theorem sysex_binary_payload_witness :
    ([1, 2, 3] : List Nat) ≠ [] ∧
    (Message.binary (Message.SysExEvent 0 SysExEvent.F0 [1, 2, 3]) =
      some (vlqBinary 0 ++ [0xf0] ++ vlqBinary (([1, 2, 3] : List Nat).length - 1) ++
        ([1, 2, 3] : List Nat).tail) ∧
    Message.binary (Message.SysExEvent 0 SysExEvent.F7 [1, 2, 3]) =
      some (vlqBinary 0 ++ [0xf7] ++ vlqBinary ([1, 2, 3] : List Nat).length ++ [1, 2, 3]) ∧
    Message.binary (Message.SysExEvent 0 (SysExEvent.Unknown 0x41) [1, 2, 3]) =
      some (vlqBinary 0 ++ [0x41] ++ vlqBinary ([1, 2, 3] : List Nat).length ++ [1, 2, 3])) :=
  ⟨by decide, sysex_binary_payload 0 0x41 [1, 2, 3] (by decide)⟩

/-- Claim C5: for every byte value, `MetaEvent::new(b)` has status byte 0xFF
and encodes back to exactly `[0xFF, b]`, so `new` inverts the encoding. -/
theorem metaEvent_new_binary : ∀ t : Nat, t < 256 →
    (MetaEvent.new t).status_byte = 0xff ∧ (MetaEvent.new t).binary = [0xff, t] := by
  decide

/-- Witness for claim C5 at the EndOfTrack code 0x2F. -/
theorem metaEvent_new_binary_witness :
    (0x2f : Nat) < 256 ∧
    ((MetaEvent.new 0x2f).status_byte = 0xff ∧
      (MetaEvent.new 0x2f).binary = [0xff, 0x2f]) :=
  ⟨by decide, metaEvent_new_binary 0x2f (by decide)⟩

/-- Claim C6: for every channel below 16, each named channel-voice variant's
status byte is its type nibble or-ed with the channel, and that status byte
heads the variant's `binary()` encoding. -/
theorem midiEvent_status_byte (ch : Nat) (h : ch < 16) (a b : Nat) (w : Int) :
    (MidiEvent.NoteOff ch a b).status_byte = 0x80 ||| ch ∧
    (MidiEvent.NoteOff ch a b).binary.head? =
      some (MidiEvent.NoteOff ch a b).status_byte ∧
    (MidiEvent.NoteOn ch a b).status_byte = 0x90 ||| ch ∧
    (MidiEvent.NoteOn ch a b).binary.head? =
      some (MidiEvent.NoteOn ch a b).status_byte ∧
    (MidiEvent.PolyphonicKeyPressure ch a b).status_byte = 0xa0 ||| ch ∧
    (MidiEvent.PolyphonicKeyPressure ch a b).binary.head? =
      some (MidiEvent.PolyphonicKeyPressure ch a b).status_byte ∧
    (MidiEvent.ControlChange ch a b).status_byte = 0xb0 ||| ch ∧
    (MidiEvent.ControlChange ch a b).binary.head? =
      some (MidiEvent.ControlChange ch a b).status_byte ∧
    (MidiEvent.ProgramChange ch a).status_byte = 0xc0 ||| ch ∧
    (MidiEvent.ProgramChange ch a).binary.head? =
      some (MidiEvent.ProgramChange ch a).status_byte ∧
    (MidiEvent.ChannelPressure ch a).status_byte = 0xd0 ||| ch ∧
    (MidiEvent.ChannelPressure ch a).binary.head? =
      some (MidiEvent.ChannelPressure ch a).status_byte ∧
    (MidiEvent.PitchBendChange ch w).status_byte = 0xe0 ||| ch ∧
    (MidiEvent.PitchBendChange ch w).binary.head? =
      some (MidiEvent.PitchBendChange ch w).status_byte := by
  interval_cases ch <;>
    exact ⟨rfl, rfl, rfl, rfl, rfl, rfl, rfl, rfl, rfl, rfl, rfl, rfl, rfl, rfl⟩

/-- Witness for claim C6 at channel 5, data bytes 1 and 2, payload 0. -/
theorem midiEvent_status_byte_witness :
    (5 : Nat) < 16 ∧
    ((MidiEvent.NoteOff 5 1 2).status_byte = 0x80 ||| 5 ∧
    (MidiEvent.NoteOff 5 1 2).binary.head? =
      some (MidiEvent.NoteOff 5 1 2).status_byte ∧
    (MidiEvent.NoteOn 5 1 2).status_byte = 0x90 ||| 5 ∧
    (MidiEvent.NoteOn 5 1 2).binary.head? =
      some (MidiEvent.NoteOn 5 1 2).status_byte ∧
    (MidiEvent.PolyphonicKeyPressure 5 1 2).status_byte = 0xa0 ||| 5 ∧
    (MidiEvent.PolyphonicKeyPressure 5 1 2).binary.head? =
      some (MidiEvent.PolyphonicKeyPressure 5 1 2).status_byte ∧
    (MidiEvent.ControlChange 5 1 2).status_byte = 0xb0 ||| 5 ∧
    (MidiEvent.ControlChange 5 1 2).binary.head? =
      some (MidiEvent.ControlChange 5 1 2).status_byte ∧
    (MidiEvent.ProgramChange 5 1).status_byte = 0xc0 ||| 5 ∧
    (MidiEvent.ProgramChange 5 1).binary.head? =
      some (MidiEvent.ProgramChange 5 1).status_byte ∧
    (MidiEvent.ChannelPressure 5 1).status_byte = 0xd0 ||| 5 ∧
    (MidiEvent.ChannelPressure 5 1).binary.head? =
      some (MidiEvent.ChannelPressure 5 1).status_byte ∧
    (MidiEvent.PitchBendChange 5 0).status_byte = 0xe0 ||| 5 ∧
    (MidiEvent.PitchBendChange 5 0).binary.head? =
      some (MidiEvent.PitchBendChange 5 0).status_byte) :=
  ⟨by decide, midiEvent_status_byte 5 (by decide) 1 2 0⟩

/-- Claim C7: for every status byte, the builder's initial shortage equals
the per-type parameter-byte count table stated by the spec. -/
theorem builder_new_shortage : ∀ s : Nat, s < 256 →
    (MidiEventBuilder.new s).shortage = shortageSpec s := by
  decide

/-- Witness for claim C7 at the NoteOn status byte 0x95. -/
theorem builder_new_shortage_witness :
    (0x95 : Nat) < 256 ∧
    (MidiEventBuilder.new 0x95).shortage = shortageSpec 0x95 :=
  ⟨by decide, builder_new_shortage 0x95 (by decide)⟩

/-- Claim C8: `Message::binary` on an F0 sysex event with empty stored data
is undefined (length underflow and out-of-bounds slice in the source,
`none` in this embedding), and it is defined whenever the stored data is
nonempty. -/
theorem sysex_f0_empty_data (dt : Nat) (data : List Nat) (h : data ≠ []) :
    Message.binary (Message.SysExEvent dt SysExEvent.F0 []) = none ∧
    (Message.binary (Message.SysExEvent dt SysExEvent.F0 data)).isSome = true := by
  refine ⟨rfl, ?_⟩
  cases data with
  | nil => exact absurd rfl h
  | cons x xs => rfl

/-- Witness for claim C8 at delta time 0 and stored data `[0xF0, 1, 2]`. -/
theorem sysex_f0_empty_data_witness :
    ([0xf0, 1, 2] : List Nat) ≠ [] ∧
    (Message.binary (Message.SysExEvent 0 SysExEvent.F0 []) = none ∧
      (Message.binary (Message.SysExEvent 0 SysExEvent.F0 [0xf0, 1, 2])).isSome = true) :=
  ⟨by decide, sysex_f0_empty_data 0 [0xf0, 1, 2] (by decide)⟩

/-- Claim C9: after pushing any byte sequence into a builder made from any
status byte, stored-byte count plus shortage equals the initial required
count, and once the shortage is 0 every further push is a no-op. -/
theorem builder_data_invariant (s : Nat) (bytes : List Nat) :
    ((MidiEventBuilder.new s).pushAll bytes).data.length +
      ((MidiEventBuilder.new s).pushAll bytes).shortage =
      (MidiEventBuilder.new s).shortage ∧
    ∀ x, ((MidiEventBuilder.new s).pushAll bytes).shortage = 0 →
      ((MidiEventBuilder.new s).pushAll bytes).push x =
        (MidiEventBuilder.new s).pushAll bytes := by
  constructor
  · have hlen : (MidiEventBuilder.new s).data.length = 0 := rfl
    have := pushAll_length_shortage bytes (MidiEventBuilder.new s)
    omega
  · intro x hx
    exact push_of_shortage_zero _ x hx

/-- Witness for claim C9 at status byte 0x95 with pushed bytes 1, 2 and an
extra push of 7 once the shortage is exhausted. -/
theorem builder_data_invariant_witness :
    ((MidiEventBuilder.new 0x95).pushAll [1, 2]).data.length +
      ((MidiEventBuilder.new 0x95).pushAll [1, 2]).shortage =
      (MidiEventBuilder.new 0x95).shortage ∧
    ((MidiEventBuilder.new 0x95).pushAll [1, 2]).push 7 =
      (MidiEventBuilder.new 0x95).pushAll [1, 2] :=
  ⟨(builder_data_invariant 0x95 [1, 2]).1,
    (builder_data_invariant 0x95 [1, 2]).2 7 (by decide)⟩

/-- Claim C10: for every channel, `MidiEvent::Unknown`'s status byte is
`0x80 ||| (ch &&& 0x0f)`, identical to `NoteOff` on the same channel, and
its `binary()` encoding is exactly that single status byte. -/
theorem unknown_status_byte (ch n v : Nat) :
    (MidiEvent.Unknown ch).status_byte = 0x80 ||| (ch &&& 0x0f) ∧
    (MidiEvent.Unknown ch).status_byte = (MidiEvent.NoteOff ch n v).status_byte ∧
    (MidiEvent.Unknown ch).binary = [(MidiEvent.Unknown ch).status_byte] :=
  ⟨rfl, rfl, rfl⟩

end Ghakuf
